import Mathlib

set_option maxHeartbeats 1000000

/-!
Shallow embedding of `src/models/vto.py` (virtual try-on adapter).

The Python module has two functions:

* `generate_vto_image(person_gcs_url, product_gcs_url, sample_count, base_steps)`
  converts the two references via `https_url_to_gcs_uri`, calls
  `client.models.recontext_image`, checks the response for emptiness, and
  persists each generated image via `store_to_gcs`, returning the list of
  storage URIs.
* `call_virtual_try_on(person_image_uri=None, product_image_uri=None, sample_count=1)`
  delegates to `generate_vto_image` with `base_steps=32` and repackages the
  result into a `SimpleNamespace(predictions=[{"gcsUri": uri}, ...])`.

The external collaborators (`https_url_to_gcs_uri`, the genai client's
`recontext_image`, `store_to_gcs`, `uuid.uuid4`) live outside this file's
source, so they are modelled as an explicit environment `VtoEnv` of opaque
functions, and each call to a collaborator is recorded in an event trace so
that claims about which external calls happen (and in which order) are
statable.  Python exceptions are modelled with `Except`: a collaborator that
raises returns `Except.error`, and the adapter propagates the error exactly
as Python's exception propagation does.  Python `None` is modelled by
`Option.none`.
-/

/-- Error taxonomy of the adapter (spec section 7).  In the Python source
every failure is a raised exception; the `EmptyResultError` case is the
`ValueError("VTO API returned no generated images.")` raised by
`generate_vto_image` itself, the other cases are exceptions raised by the
external collaborators and propagated unchanged. -/
inductive VtoError where
  | ConversionError (ref : Option String)
  | RemoteServiceError (msg : String)
  | EmptyResultError
  | StorageWriteError (msg : String)
deriving DecidableEq

/-- One generated image of the remote response; `data` is its raw byte string
(`generated_image.data` in the source). -/
structure GeneratedImage where
  data : List Nat
deriving DecidableEq

/-- The response object of `client.models.recontext_image`: an ordered
sequence of generated images. -/
structure RecontextResponse where
  generated_images : List GeneratedImage
deriving DecidableEq

/-- The argument bundle passed to `client.models.recontext_image` in
`generate_vto_image`: model id, person image location, product image
locations, and the `RecontextImageConfig` fields `base_steps` and
`number_of_images`. -/
structure RecontextRequest where
  model : String
  person_image : String
  product_images : List String
  base_steps : Int
  number_of_images : Int
deriving DecidableEq

/-- The argument bundle of one `store_to_gcs` call in the persistence loop. -/
structure StoreRequest where
  folder : String
  file_name : String
  mime_type : String
  contents : List Nat
  decode : Bool
deriving DecidableEq

/-- One observable call to an external collaborator, recorded in order. -/
inductive VtoEvent where
  | convertUrl (url : Option String)
  | remoteCall (req : RecontextRequest)
  | storageWrite (req : StoreRequest)
deriving DecidableEq

/-- The external collaborators of `vto.py`, including the process-wide
configuration value `cfg.VTO_MODEL_ID`.  `uuid4 k` is the value produced by
the `k`-th `uuid.uuid4()` call inside one invocation of
`generate_vto_image` (the loop makes exactly one such call per image, so the
`k`-th call belongs to index `k`); nothing is assumed about it, in
particular it may repeat. -/
structure VtoEnv where
  VTO_MODEL_ID : String
  https_url_to_gcs_uri : Option String → Except VtoError String
  recontext_image : RecontextRequest → Except VtoError RecontextResponse
  store_to_gcs : StoreRequest → Except VtoError String
  uuid4 : Nat → String

/-- The file name built by the f-string
`f"vto_result_{unique_id}-{i}_.png"` of the source. -/
def vtoFileName (unique_id : String) (i : Nat) : String :=
  "vto_result_" ++ unique_id ++ "-" ++ Nat.repr i ++ "_.png"

/-- The `store_to_gcs` argument bundle built for the image of positional
index `i` (source lines 68-75): fixed folder `"vto_results"`, file name from
a fresh `uuid.uuid4()` and the index, mime type `"image/png"`, the raw bytes,
and `decode=False`. -/
def mkStoreRequest (env : VtoEnv) (img : GeneratedImage) (i : Nat) : StoreRequest :=
  { folder := "vto_results"
    file_name := vtoFileName (env.uuid4 i) i
    mime_type := "image/png"
    contents := img.data
    decode := false }

/-- The `recontext_image` argument bundle of source lines 44-56. -/
def mkRecontextRequest (env : VtoEnv) (person_gcs_uri product_gcs_uri : String)
    (sample_count base_steps : Int) : RecontextRequest :=
  { model := env.VTO_MODEL_ID
    person_image := person_gcs_uri
    product_images := [product_gcs_uri]
    base_steps := base_steps
    number_of_images := sample_count }

/-- The persistence loop of `generate_vto_image` (source lines 66-76),
starting at positional index `i`: for each image build the store request,
call `store_to_gcs`, and either collect the returned URI or propagate the
storage error (a raised exception aborts the loop).  Returns the outcome
together with the trace of storage calls actually made. -/
def persistImages (env : VtoEnv) :
    List GeneratedImage → Nat → Except VtoError (List String) × List VtoEvent
  | [], _ => (Except.ok [], [])
  | img :: rest, i =>
    let req := mkStoreRequest env img i
    match env.store_to_gcs req with
    | Except.error e => (Except.error e, [VtoEvent.storageWrite req])
    | Except.ok gcs_uri =>
      let rest_result := persistImages env rest (i + 1)
      match rest_result.1 with
      | Except.error e => (Except.error e, VtoEvent.storageWrite req :: rest_result.2)
      | Except.ok uris =>
        (Except.ok (gcs_uri :: uris), VtoEvent.storageWrite req :: rest_result.2)

/-- Embedding of `generate_vto_image` (source lines 28-78).  Returns the
outcome (list of storage URIs, or the propagated error) paired with the
ordered trace of external calls made. -/
def generate_vto_image (env : VtoEnv) (person_gcs_url product_gcs_url : Option String)
    (sample_count base_steps : Int) :
    Except VtoError (List String) × List VtoEvent :=
  match env.https_url_to_gcs_uri person_gcs_url with
  | Except.error e => (Except.error e, [VtoEvent.convertUrl person_gcs_url])
  | Except.ok person_gcs_uri =>
    match env.https_url_to_gcs_uri product_gcs_url with
    | Except.error e =>
      (Except.error e,
        [VtoEvent.convertUrl person_gcs_url, VtoEvent.convertUrl product_gcs_url])
    | Except.ok product_gcs_uri =>
      let req := mkRecontextRequest env person_gcs_uri product_gcs_uri sample_count base_steps
      let pre := [VtoEvent.convertUrl person_gcs_url, VtoEvent.convertUrl product_gcs_url,
        VtoEvent.remoteCall req]
      match env.recontext_image req with
      | Except.error e => (Except.error e, pre)
      | Except.ok response =>
        if response.generated_images = [] then
          (Except.error VtoError.EmptyResultError, pre)
        else
          let loop := persistImages env response.generated_images 0
          (loop.1, pre ++ loop.2)

/-- One record of the legacy response shape: `{"gcsUri": uri}`. -/
structure VtoPrediction where
  gcsUri : String
deriving DecidableEq

/-- The `SimpleNamespace(predictions=...)` envelope returned by
`call_virtual_try_on`. -/
structure MockResponse where
  predictions : List VtoPrediction
deriving DecidableEq

/-- Repackaging done by `call_virtual_try_on` (source lines 100-104): on
success wrap each URI as `{"gcsUri": uri}` and put the list in the
`predictions` field; an exception from `generate_vto_image` propagates. -/
def repackage (r : Except VtoError (List String) × List VtoEvent) :
    Except VtoError MockResponse × List VtoEvent :=
  match r with
  | (Except.error e, tr) => (Except.error e, tr)
  | (Except.ok gcs_uris, tr) =>
    (Except.ok { predictions := gcs_uris.map (fun uri => { gcsUri := uri }) }, tr)

/-- Embedding of `call_virtual_try_on` (source lines 83-104).  The Python
signature has defaults `person_image_uri=None`, `product_image_uri=None`,
`sample_count=1`; an argument the caller does not supply is modelled as
`none` and resolved to its default here. -/
def call_virtual_try_on (env : VtoEnv) (person_image_uri product_image_uri : Option String)
    (sample_count : Option Int) :
    Except VtoError MockResponse × List VtoEvent :=
  let sc : Int :=
    match sample_count with
    | none => 1
    | some v => v
  repackage (generate_vto_image env person_image_uri product_image_uri sc 32)

/-- The storage-write calls of a trace, in order. -/
def storageWrites : List VtoEvent → List StoreRequest
  | [] => []
  | VtoEvent.storageWrite r :: tr => r :: storageWrites tr
  | VtoEvent.convertUrl _ :: tr => storageWrites tr
  | VtoEvent.remoteCall _ :: tr => storageWrites tr

/-- The remote-service calls of a trace, in order. -/
def remoteCalls : List VtoEvent → List RecontextRequest
  | [] => []
  | VtoEvent.remoteCall r :: tr => r :: remoteCalls tr
  | VtoEvent.convertUrl _ :: tr => remoteCalls tr
  | VtoEvent.storageWrite _ :: tr => remoteCalls tr

/-- The sequence of store requests the loop issues for `imgs` when every
write succeeds, starting at index `start`. -/
def storeRequests (env : VtoEnv) : List GeneratedImage → Nat → List StoreRequest
  | [], _ => []
  | img :: rest, i => mkStoreRequest env img i :: storeRequests env rest (i + 1)

/-- A concrete environment for witnesses: conversion succeeds on every
string except `"bad"` and fails on `None`, the service returns two images,
every write succeeds. -/
def okEnv : VtoEnv :=
  { VTO_MODEL_ID := "virtual-try-on-001"
    https_url_to_gcs_uri := fun r =>
      match r with
      | none => Except.error (VtoError.ConversionError none)
      | some s =>
        if s = "bad" then Except.error (VtoError.ConversionError (some s))
        else Except.ok ("gs://" ++ s)
    recontext_image := fun _ =>
      Except.ok { generated_images := [{ data := [0, 1] }, { data := [2] }] }
    store_to_gcs := fun r => Except.ok ("gs://bucket/vto_results/" ++ r.file_name)
    uuid4 := fun i => "u" ++ Nat.repr i }

/-- A concrete environment whose remote service returns zero images. -/
def emptyEnv : VtoEnv :=
  { okEnv with recontext_image := fun _ => Except.ok { generated_images := [] } }

/-- A concrete environment with three result images whose storage writer
fails on the write of index 1 (the second of three). -/
def storeFailEnv : VtoEnv :=
  { okEnv with
    recontext_image := fun _ =>
      Except.ok { generated_images := [{ data := [0] }, { data := [1] }, { data := [2] }] }
    store_to_gcs := fun r =>
      if r.file_name = vtoFileName ("u" ++ Nat.repr 1) 1 then
        Except.error (VtoError.StorageWriteError "disk full")
      else Except.ok ("gs://bucket/vto_results/" ++ r.file_name) }

example :
    (generate_vto_image okEnv (some "p.png") (some "q.png") 2 7).1 =
      Except.ok ["gs://bucket/vto_results/vto_result_u0-0_.png",
        "gs://bucket/vto_results/vto_result_u1-1_.png"] := by
  rfl

example :
    (generate_vto_image emptyEnv (some "p.png") (some "q.png") 2 7).1 =
      Except.error VtoError.EmptyResultError := by
  rfl

example :
    (generate_vto_image storeFailEnv (some "p.png") (some "q.png") 3 32).1 =
      Except.error (VtoError.StorageWriteError "disk full") := by
  rfl

example :
    storageWrites (generate_vto_image storeFailEnv (some "p.png") (some "q.png") 3 32).2 =
      storeRequests storeFailEnv
        [{ data := [0] }, { data := [1] }] 0 := by
  rfl

/-! ### Trace utilities -/

theorem storageWrites_append (a b : List VtoEvent) :
    storageWrites (a ++ b) = storageWrites a ++ storageWrites b := by
  induction a with
  | nil => rfl
  | cons e tl ih => cases e <;> simp [storageWrites, ih]

theorem remoteCalls_append (a b : List VtoEvent) :
    remoteCalls (a ++ b) = remoteCalls a ++ remoteCalls b := by
  induction a with
  | nil => rfl
  | cons e tl ih => cases e <;> simp [remoteCalls, ih]

theorem storageWrites_map_storageWrite (l : List StoreRequest) :
    storageWrites (l.map VtoEvent.storageWrite) = l := by
  induction l with
  | nil => rfl
  | cons r tl ih => simp [storageWrites, ih]

theorem remoteCalls_map_storageWrite (l : List StoreRequest) :
    remoteCalls (l.map VtoEvent.storageWrite) = [] := by
  induction l with
  | nil => rfl
  | cons r tl ih => simp [remoteCalls, ih]

theorem storeRequests_length (env : VtoEnv) :
    ∀ (imgs : List GeneratedImage) (start : Nat),
      (storeRequests env imgs start).length = imgs.length := by
  intro imgs
  induction imgs with
  | nil => intro start; rfl
  | cons img rest ih => intro start; simp [storeRequests, ih]

theorem storeRequests_get (env : VtoEnv) :
    ∀ (imgs : List GeneratedImage) (start k : Nat) (hk : k < imgs.length)
      (hk2 : k < (storeRequests env imgs start).length),
      (storeRequests env imgs start).get ⟨k, hk2⟩ =
        mkStoreRequest env (imgs.get ⟨k, hk⟩) (start + k) := by
  intro imgs
  induction imgs with
  | nil => intro start k hk hk2; exact absurd hk (Nat.not_lt_zero k)
  | cons img rest ih =>
    intro start k hk hk2
    cases k with
    | zero => simp [storeRequests, List.get]
    | succ k =>
      have hk' : k < rest.length := by simpa using hk
      have hk2' : k < (storeRequests env rest (start + 1)).length := by
        simpa [storeRequests_length] using hk'
      have harith : start + 1 + k = start + (k + 1) := by omega
      have := ih (start + 1) k hk' hk2'
      simpa [storeRequests, List.get, harith] using this

theorem storeRequests_fileNames (env : VtoEnv) :
    ∀ (imgs : List GeneratedImage) (start : Nat),
      (storeRequests env imgs start).map (fun r => r.file_name) =
        (List.range' start imgs.length).map (fun m => vtoFileName (env.uuid4 m) m) := by
  intro imgs
  induction imgs with
  | nil => intro start; rfl
  | cons img rest ih =>
    intro start
    simp [storeRequests, List.range'_succ, ih, mkStoreRequest]

/-! ### Persistence-loop characterizations -/

theorem persistImages_remoteCalls (env : VtoEnv) :
    ∀ (imgs : List GeneratedImage) (start : Nat),
      remoteCalls (persistImages env imgs start).2 = [] := by
  intro imgs
  induction imgs with
  | nil => intro start; rfl
  | cons img rest ih =>
    intro start
    simp only [persistImages]
    cases h : env.store_to_gcs (mkStoreRequest env img start) with
    | error e => simp [remoteCalls]
    | ok u =>
      cases h2 : (persistImages env rest (start + 1)).1 with
      | error e => simpa [remoteCalls] using ih (start + 1)
      | ok uris => simpa [remoteCalls] using ih (start + 1)

theorem persistImages_ok (env : VtoEnv) :
    ∀ (imgs : List GeneratedImage) (start : Nat),
      (∀ r, ∃ u, env.store_to_gcs r = Except.ok u) →
      ∃ uris,
        persistImages env imgs start =
          (Except.ok uris, (storeRequests env imgs start).map VtoEvent.storageWrite) ∧
        uris.length = imgs.length ∧
        ∀ (k : Nat) (hk : k < imgs.length) (hk2 : k < uris.length),
          env.store_to_gcs (mkStoreRequest env (imgs.get ⟨k, hk⟩) (start + k)) =
            Except.ok (uris.get ⟨k, hk2⟩) := by
  intro imgs
  induction imgs with
  | nil =>
    intro start _
    refine ⟨[], rfl, rfl, ?_⟩
    intro k hk
    exact absurd hk (Nat.not_lt_zero k)
  | cons img rest ih =>
    intro start hw
    obtain ⟨u, hu⟩ := hw (mkStoreRequest env img start)
    obtain ⟨uris, hpe, hlen, hidx⟩ := ih (start + 1) hw
    refine ⟨u :: uris, ?_, by simp [hlen], ?_⟩
    · simp [persistImages, hu, hpe, storeRequests]
    · intro k hk hk2
      cases k with
      | zero => simpa [List.get] using hu
      | succ k =>
        have hk' : k < rest.length := by simpa using hk
        have hk2' : k < uris.length := by simpa using hk2
        have harith : start + 1 + k = start + (k + 1) := by omega
        have := hidx k hk' hk2'
        simpa [List.get, harith] using this

theorem persistImages_ok_inv (env : VtoEnv) :
    ∀ (imgs : List GeneratedImage) (start : Nat) (uris : List String) (tr : List VtoEvent),
      persistImages env imgs start = (Except.ok uris, tr) →
      tr = (storeRequests env imgs start).map VtoEvent.storageWrite ∧
      uris.length = imgs.length ∧
      ∀ (k : Nat) (hk : k < imgs.length) (hk2 : k < uris.length),
        env.store_to_gcs (mkStoreRequest env (imgs.get ⟨k, hk⟩) (start + k)) =
          Except.ok (uris.get ⟨k, hk2⟩) := by
  intro imgs
  induction imgs with
  | nil =>
    intro start uris tr h
    simp only [persistImages, Prod.mk.injEq] at h
    obtain ⟨h1, h2⟩ := h
    cases h1
    refine ⟨h2.symm, rfl, ?_⟩
    intro k hk
    exact absurd hk (Nat.not_lt_zero k)
  | cons img rest ih =>
    intro start uris tr h
    simp only [persistImages] at h
    cases hst : env.store_to_gcs (mkStoreRequest env img start) with
    | error e => rw [hst] at h; simp at h
    | ok u =>
      rw [hst] at h
      cases hrest : (persistImages env rest (start + 1)).1 with
      | error e => rw [hrest] at h; simp at h
      | ok uris' =>
        rw [hrest] at h
        simp only [Prod.mk.injEq, Except.ok.injEq] at h
        obtain ⟨h1, h2⟩ := h
        have hpair : persistImages env rest (start + 1) =
            (Except.ok uris', (persistImages env rest (start + 1)).2) := by
          rw [← hrest]
        obtain ⟨ht, hlen, hidx⟩ := ih (start + 1) uris' _ hpair
        subst h1
        refine ⟨?_, by simp [hlen], ?_⟩
        · rw [← h2, ht]; simp [storeRequests]
        · intro k hk hk2
          cases k with
          | zero => simpa [List.get] using hst
          | succ k =>
            have hk' : k < rest.length := by simpa using hk
            have hk2' : k < uris'.length := by simpa using hk2
            have harith : start + 1 + k = start + (k + 1) := by omega
            have := hidx k hk' hk2'
            simpa [List.get, harith] using this

theorem persistImages_fail (env : VtoEnv) :
    ∀ (imgs : List GeneratedImage) (start j : Nat) (hj : j < imgs.length) (e : VtoError),
      (∀ (k : Nat) (hk : k < imgs.length), k < j →
        ∃ u, env.store_to_gcs (mkStoreRequest env (imgs.get ⟨k, hk⟩) (start + k)) =
          Except.ok u) →
      env.store_to_gcs (mkStoreRequest env (imgs.get ⟨j, hj⟩) (start + j)) =
        Except.error e →
      (persistImages env imgs start).1 = Except.error e ∧
      (persistImages env imgs start).2 =
        (storeRequests env (imgs.take (j + 1)) start).map VtoEvent.storageWrite := by
  intro imgs
  induction imgs with
  | nil => intro start j hj; exact absurd hj (Nat.not_lt_zero j)
  | cons img rest ih =>
    intro start j hj e hpre hfail
    cases j with
    | zero =>
      have hfail' : env.store_to_gcs (mkStoreRequest env img start) = Except.error e := by
        simpa [List.get] using hfail
      constructor
      · simp [persistImages, hfail']
      · simp [persistImages, hfail', storeRequests]
    | succ j =>
      obtain ⟨u, hu⟩ := hpre 0 (by simp) (Nat.succ_pos j)
      have hu' : env.store_to_gcs (mkStoreRequest env img start) = Except.ok u := by
        simpa [List.get] using hu
      have hj' : j < rest.length := by simpa using hj
      have harith : ∀ m : Nat, start + 1 + m = start + (m + 1) := by omega
      have hpre' : ∀ (k : Nat) (hk : k < rest.length), k < j →
          ∃ u, env.store_to_gcs (mkStoreRequest env (rest.get ⟨k, hk⟩) (start + 1 + k)) =
            Except.ok u := by
        intro k hk hkj
        have := hpre (k + 1) (by simpa using hk) (by omega)
        simpa [List.get, harith k] using this
      have hfail' : env.store_to_gcs
          (mkStoreRequest env (rest.get ⟨j, hj'⟩) (start + 1 + j)) = Except.error e := by
        simpa [List.get, harith j] using hfail
      obtain ⟨ih1, ih2⟩ := ih (start + 1) j hj' e hpre' hfail'
      constructor
      · simp [persistImages, hu', ih1]
      · simp [persistImages, hu', ih1, ih2, storeRequests]

/-! ### Decimal representation facts (for file-name distinctness) -/

theorem digitChar_isDigit (d : Nat) (hd : d < 10) : (Nat.digitChar d).isDigit = true := by
  interval_cases d <;> decide

theorem digitChar_inj_lt (a b : Nat) (ha : a < 10) (hb : b < 10)
    (h : Nat.digitChar a = Nat.digitChar b) : a = b := by
  interval_cases a <;> interval_cases b <;> revert h <;> decide

theorem toDigitsCore_eq_digits (fuel : Nat) :
    ∀ (n : Nat) (ds : List Char), n < fuel → 0 < n →
      Nat.toDigitsCore 10 fuel n ds =
        ((Nat.digits 10 n).map Nat.digitChar).reverse ++ ds := by
  induction fuel with
  | zero => intro n ds hfuel; omega
  | succ fuel ih =>
    intro n ds hfuel hn
    rw [Nat.digits_def' (by norm_num : (1 : ℕ) < 10) hn]
    by_cases h0 : n / 10 = 0
    · have hdz : Nat.digits 10 (n / 10) = [] := by rw [h0]; simp
      simp [Nat.toDigitsCore, h0, hdz]
    · have hlt : n / 10 < fuel := by
        have := Nat.div_lt_self hn (by norm_num : 1 < 10)
        omega
      have hpos : 0 < n / 10 := Nat.pos_of_ne_zero h0
      simp only [Nat.toDigitsCore, h0, if_false]
      rw [ih (n / 10) _ hlt hpos]
      simp

theorem repr_data_of_pos (n : Nat) (hn : 0 < n) :
    (Nat.repr n).data = ((Nat.digits 10 n).map Nat.digitChar).reverse := by
  show (Nat.toDigits 10 n).asString.data = _
  rw [Nat.toDigits, toDigitsCore_eq_digits (n + 1) n [] (Nat.lt_succ_self n) hn]
  simp [List.asString]

theorem repr_chars_isDigit (n : Nat) : ∀ c ∈ (Nat.repr n).data, c.isDigit = true := by
  rcases Nat.eq_zero_or_pos n with h | h
  · subst h
    intro c hc
    have hzero : (Nat.repr 0).data = ['0'] := rfl
    rw [hzero] at hc
    have : c = '0' := by simpa using hc
    subst this
    decide
  · rw [repr_data_of_pos n h]
    intro c hc
    rw [List.mem_reverse, List.mem_map] at hc
    obtain ⟨d, hd, rfl⟩ := hc
    exact digitChar_isDigit d (Nat.digits_lt_base (by norm_num) hd)

theorem map_digitChar_inj :
    ∀ (l1 l2 : List Nat), (∀ d ∈ l1, d < 10) → (∀ d ∈ l2, d < 10) →
      l1.map Nat.digitChar = l2.map Nat.digitChar → l1 = l2 := by
  intro l1
  induction l1 with
  | nil =>
    intro l2 _ _ h
    cases l2 with
    | nil => rfl
    | cons b tl2 => simp at h
  | cons a tl ih =>
    intro l2 h1 h2 h
    cases l2 with
    | nil => simp at h
    | cons b tl2 =>
      simp only [List.map_cons, List.cons.injEq] at h
      obtain ⟨hab, htl⟩ := h
      have ha : a = b :=
        digitChar_inj_lt a b (h1 a (by simp)) (h2 b (by simp)) hab
      have htl' : tl = tl2 :=
        ih tl2 (fun d hd => h1 d (by simp [hd])) (fun d hd => h2 d (by simp [hd])) htl
      rw [ha, htl']

theorem repr_inj (i j : Nat) (h : Nat.repr i = Nat.repr j) : i = j := by
  have hdata : (Nat.repr i).data = (Nat.repr j).data := by rw [h]
  rcases Nat.eq_zero_or_pos i with hi | hi <;> rcases Nat.eq_zero_or_pos j with hj | hj
  · omega
  · exfalso
    subst hi
    rw [repr_data_of_pos j hj] at hdata
    have hzero : (Nat.repr 0).data = ['0'] := rfl
    rw [hzero] at hdata
    have h1 : (Nat.digits 10 j).map Nat.digitChar = ['0'] := by
      have := congrArg List.reverse hdata
      simpa using this.symm
    have hlen : (Nat.digits 10 j).length = 1 := by
      have := congrArg List.length h1
      simpa using this
    obtain ⟨d, hd⟩ := List.length_eq_one.mp hlen
    rw [hd] at h1
    simp only [List.map_cons, List.map_nil, List.cons.injEq] at h1
    have hmem : d ∈ Nat.digits 10 j := by rw [hd]; simp
    have hd10 : d < 10 := Nat.digits_lt_base (by norm_num) hmem
    have : d = 0 := digitChar_inj_lt d 0 hd10 (by norm_num) (by simpa using h1.1)
    subst this
    have := Nat.ofDigits_digits 10 j
    rw [hd] at this
    simp [Nat.ofDigits] at this
    omega
  · exfalso
    subst hj
    rw [repr_data_of_pos i hi] at hdata
    have hzero : (Nat.repr 0).data = ['0'] := rfl
    rw [hzero] at hdata
    have h1 : (Nat.digits 10 i).map Nat.digitChar = ['0'] := by
      have := congrArg List.reverse hdata
      simpa using this
    have hlen : (Nat.digits 10 i).length = 1 := by
      have := congrArg List.length h1
      simpa using this
    obtain ⟨d, hd⟩ := List.length_eq_one.mp hlen
    rw [hd] at h1
    simp only [List.map_cons, List.map_nil, List.cons.injEq] at h1
    have hmem : d ∈ Nat.digits 10 i := by rw [hd]; simp
    have hd10 : d < 10 := Nat.digits_lt_base (by norm_num) hmem
    have : d = 0 := digitChar_inj_lt d 0 hd10 (by norm_num) (by simpa using h1.1)
    subst this
    have := Nat.ofDigits_digits 10 i
    rw [hd] at this
    simp [Nat.ofDigits] at this
    omega
  · rw [repr_data_of_pos i hi, repr_data_of_pos j hj] at hdata
    have hmap : (Nat.digits 10 i).map Nat.digitChar = (Nat.digits 10 j).map Nat.digitChar :=
      List.reverse_injective hdata
    have hdig : Nat.digits 10 i = Nat.digits 10 j :=
      map_digitChar_inj _ _
        (fun d hd => Nat.digits_lt_base (by norm_num) hd)
        (fun d hd => Nat.digits_lt_base (by norm_num) hd) hmap
    have := congrArg (Nat.ofDigits 10) hdig
    simpa [Nat.ofDigits_digits] using this

theorem digit_run_dash_inj :
    ∀ (a b x1 x2 : List Char),
      (∀ c ∈ a, c.isDigit = true) → (∀ c ∈ b, c.isDigit = true) →
      a ++ '-' :: x1 = b ++ '-' :: x2 → a = b := by
  intro a
  induction a with
  | nil =>
    intro b x1 x2 _ hb h
    cases b with
    | nil => rfl
    | cons c tl =>
      exfalso
      simp only [List.nil_append, List.cons_append, List.cons.injEq] at h
      have : c.isDigit = true := hb c (by simp)
      rw [← h.1] at this
      simp at this
  | cons c tl ih =>
    intro b x1 x2 ha hb h
    cases b with
    | nil =>
      exfalso
      simp only [List.nil_append, List.cons_append, List.cons.injEq] at h
      have : c.isDigit = true := ha c (by simp)
      rw [h.1] at this
      simp at this
    | cons c2 tl2 =>
      simp only [List.cons_append, List.cons.injEq] at h
      have htl : tl = tl2 :=
        ih tl2 x1 x2 (fun d hd => ha d (by simp [hd])) (fun d hd => hb d (by simp [hd])) h.2
      rw [h.1, htl]

theorem vtoFileName_inj (u1 u2 : String) (i j : Nat)
    (h : vtoFileName u1 i = vtoFileName u2 j) : i = j := by
  have hd := congrArg String.data h
  simp only [vtoFileName, String.data_append] at hd
  have hd2 := congrArg List.reverse hd
  simp only [List.reverse_append, List.append_assoc] at hd2
  replace hd2 := List.append_cancel_left hd2
  have hdash : ("-".data : List Char).reverse = ['-'] := rfl
  rw [hdash] at hd2
  simp only [List.singleton_append] at hd2
  have hrev : (Nat.repr i).data.reverse = (Nat.repr j).data.reverse :=
    digit_run_dash_inj _ _ _ _
      (fun c hc => repr_chars_isDigit i c (List.mem_reverse.mp hc))
      (fun c hc => repr_chars_isDigit j c (List.mem_reverse.mp hc)) hd2
  have hdata : (Nat.repr i).data = (Nat.repr j).data := List.reverse_injective hrev
  exact repr_inj i j (String.ext hdata)

/-! ### Inversion of a successful `generate_vto_image` call -/

theorem generate_ok_inv (env : VtoEnv) (p q : Option String) (n b : Int)
    (uris : List String) (tr : List VtoEvent)
    (h : generate_vto_image env p q n b = (Except.ok uris, tr)) :
    ∃ pu qu resp,
      env.https_url_to_gcs_uri p = Except.ok pu ∧
      env.https_url_to_gcs_uri q = Except.ok qu ∧
      env.recontext_image (mkRecontextRequest env pu qu n b) = Except.ok resp ∧
      resp.generated_images ≠ [] ∧
      persistImages env resp.generated_images 0 =
        (Except.ok uris, (persistImages env resp.generated_images 0).2) ∧
      tr = [VtoEvent.convertUrl p, VtoEvent.convertUrl q,
        VtoEvent.remoteCall (mkRecontextRequest env pu qu n b)] ++
        (persistImages env resp.generated_images 0).2 := by
  simp only [generate_vto_image] at h
  split at h
  · simp at h
  · rename_i pu hp
    split at h
    · simp at h
    · rename_i qu hq
      split at h
      · simp at h
      · rename_i resp hr
        split at h
        · simp at h
        · rename_i hne
          simp only [Prod.mk.injEq] at h
          have hpair : persistImages env resp.generated_images 0 =
              (Except.ok uris, (persistImages env resp.generated_images 0).2) := by
            rw [← h.1]
          exact ⟨pu, qu, resp, hp, hq, hr, hne, hpair, h.2.symm⟩

/-- C1: when both conversions succeed, the remote service returns a
non-empty sequence of generated images, and every storage write succeeds,
`generate_vto_image` returns a list of storage URIs whose length equals the
number of generated images, never zero, and whose `k`-th entry is the URI
produced by persisting the `k`-th generated image (order preserved). -/
theorem generate_vto_image_success_length_and_order
    (env : VtoEnv) (p q : Option String) (n b : Int) (pu qu : String)
    (resp : RecontextResponse)
    (hp : env.https_url_to_gcs_uri p = Except.ok pu)
    (hq : env.https_url_to_gcs_uri q = Except.ok qu)
    (hr : env.recontext_image (mkRecontextRequest env pu qu n b) = Except.ok resp)
    (hne : resp.generated_images ≠ [])
    (hw : ∀ r, ∃ u, env.store_to_gcs r = Except.ok u) :
    ∃ uris tr,
      generate_vto_image env p q n b = (Except.ok uris, tr) ∧
      uris.length = resp.generated_images.length ∧
      uris ≠ [] ∧
      ∀ (k : Nat) (hk : k < resp.generated_images.length) (hk2 : k < uris.length),
        env.store_to_gcs (mkStoreRequest env (resp.generated_images.get ⟨k, hk⟩) k) =
          Except.ok (uris.get ⟨k, hk2⟩) := by
  obtain ⟨uris, hpe, hlen, hidx⟩ := persistImages_ok env resp.generated_images 0 hw
  refine ⟨uris,
    [VtoEvent.convertUrl p, VtoEvent.convertUrl q,
      VtoEvent.remoteCall (mkRecontextRequest env pu qu n b)] ++
      (storeRequests env resp.generated_images 0).map VtoEvent.storageWrite,
    ?_, hlen, ?_, ?_⟩
  · simp only [generate_vto_image, hp, hq, hr, if_neg hne, hpe]
  · intro hnil
    rw [hnil] at hlen
    exact hne (List.length_eq_zero.mp hlen.symm)
  · intro k hk hk2
    simpa using hidx k hk hk2

/-- C1 witness: a concrete run of `generate_vto_image` with two generated
images where every external call succeeds. -/
theorem generate_vto_image_success_length_and_order_witness :
    ∃ uris tr,
      generate_vto_image okEnv (some "p.png") (some "q.png") 2 7 = (Except.ok uris, tr) ∧
      uris.length =
        ({ generated_images := [{ data := [0, 1] }, { data := [2] }] } :
          RecontextResponse).generated_images.length ∧
      uris ≠ [] ∧
      ∀ (k : Nat)
        (hk : k < ({ generated_images := [{ data := [0, 1] }, { data := [2] }] } :
          RecontextResponse).generated_images.length)
        (hk2 : k < uris.length),
        okEnv.store_to_gcs
          (mkStoreRequest okEnv
            (({ generated_images := [{ data := [0, 1] }, { data := [2] }] } :
              RecontextResponse).generated_images.get ⟨k, hk⟩) k) =
          Except.ok (uris.get ⟨k, hk2⟩) :=
  generate_vto_image_success_length_and_order okEnv (some "p.png") (some "q.png") 2 7
    "gs://p.png" "gs://q.png"
    { generated_images := [{ data := [0, 1] }, { data := [2] }] }
    rfl rfl rfl (by decide) (fun r => ⟨"gs://bucket/vto_results/" ++ r.file_name, rfl⟩)

/-- C2: whenever `generate_vto_image` succeeds with a list of URIs,
`call_virtual_try_on` on the same inputs succeeds with an envelope whose
`predictions` field has the same length, and whose `i`-th record's `gcsUri`
is the `i`-th URI of that list (order preserved). -/
theorem call_virtual_try_on_predictions_match
    (env : VtoEnv) (p q : Option String) (n : Int) (uris : List String)
    (tr : List VtoEvent)
    (hg : generate_vto_image env p q n 32 = (Except.ok uris, tr)) :
    ∃ resp : MockResponse,
      call_virtual_try_on env p q (some n) = (Except.ok resp, tr) ∧
      resp.predictions.length = uris.length ∧
      ∀ (i : Nat) (hi : i < resp.predictions.length) (hi2 : i < uris.length),
        (resp.predictions.get ⟨i, hi⟩).gcsUri = uris.get ⟨i, hi2⟩ := by
  refine ⟨{ predictions := uris.map (fun u => { gcsUri := u }) }, ?_, by simp, ?_⟩
  · simp [call_virtual_try_on, repackage, hg]
  · intro i hi hi2
    simp [List.get_map]

/-- C2 witness: the concrete successful run of C1's witness, repackaged. -/
theorem call_virtual_try_on_predictions_match_witness :
    ∃ resp : MockResponse,
      call_virtual_try_on okEnv (some "p.png") (some "q.png") (some 2) =
        (Except.ok resp,
          (generate_vto_image okEnv (some "p.png") (some "q.png") 2 32).2) ∧
      resp.predictions.length =
        (["gs://bucket/vto_results/vto_result_u0-0_.png",
          "gs://bucket/vto_results/vto_result_u1-1_.png"] : List String).length ∧
      ∀ (i : Nat) (hi : i < resp.predictions.length)
        (hi2 : i < (["gs://bucket/vto_results/vto_result_u0-0_.png",
          "gs://bucket/vto_results/vto_result_u1-1_.png"] : List String).length),
        (resp.predictions.get ⟨i, hi⟩).gcsUri =
          (["gs://bucket/vto_results/vto_result_u0-0_.png",
            "gs://bucket/vto_results/vto_result_u1-1_.png"] : List String).get ⟨i, hi2⟩ :=
  call_virtual_try_on_predictions_match okEnv (some "p.png") (some "q.png") 2
    ["gs://bucket/vto_results/vto_result_u0-0_.png",
      "gs://bucket/vto_results/vto_result_u1-1_.png"]
    (generate_vto_image okEnv (some "p.png") (some "q.png") 2 32).2 rfl

/-- C3: when the remote service responds successfully with zero generated
images, `generate_vto_image` fails with `EmptyResultError` and performs no
storage write (its trace is just the two conversions and the remote call);
and a successful call always returns at least one URI and performs at least
one storage write. -/
theorem generate_vto_image_empty_result
    (env : VtoEnv) (p q : Option String) (n b : Int) :
    (∀ (pu qu : String) (resp : RecontextResponse),
      env.https_url_to_gcs_uri p = Except.ok pu →
      env.https_url_to_gcs_uri q = Except.ok qu →
      env.recontext_image (mkRecontextRequest env pu qu n b) = Except.ok resp →
      resp.generated_images = [] →
      generate_vto_image env p q n b =
        (Except.error VtoError.EmptyResultError,
          [VtoEvent.convertUrl p, VtoEvent.convertUrl q,
            VtoEvent.remoteCall (mkRecontextRequest env pu qu n b)]) ∧
      storageWrites (generate_vto_image env p q n b).2 = []) ∧
    (∀ (uris : List String) (tr : List VtoEvent),
      generate_vto_image env p q n b = (Except.ok uris, tr) →
      uris ≠ [] ∧ storageWrites tr ≠ []) := by
  constructor
  · intro pu qu resp hp hq hr hempty
    have hgen : generate_vto_image env p q n b =
        (Except.error VtoError.EmptyResultError,
          [VtoEvent.convertUrl p, VtoEvent.convertUrl q,
            VtoEvent.remoteCall (mkRecontextRequest env pu qu n b)]) := by
      simp only [generate_vto_image, hp, hq, hr, if_pos hempty]
    exact ⟨hgen, by rw [hgen]; rfl⟩
  · intro uris tr h
    obtain ⟨pu, qu, resp, hp, hq, hr, hne, hloop, htr⟩ :=
      generate_ok_inv env p q n b uris tr h
    obtain ⟨ht, hlen, -⟩ := persistImages_ok_inv env resp.generated_images 0 uris _ hloop
    constructor
    · intro hnil
      rw [hnil] at hlen
      have : resp.generated_images.length = 0 := by simpa using hlen.symm
      exact hne (List.length_eq_zero.mp this)
    · rw [htr, storageWrites_append, ht, storageWrites_map_storageWrite]
      have hpre : storageWrites [VtoEvent.convertUrl p, VtoEvent.convertUrl q,
          VtoEvent.remoteCall (mkRecontextRequest env pu qu n b)] = [] := rfl
      rw [hpre, List.nil_append]
      cases himgs : resp.generated_images with
      | nil => exact absurd himgs hne
      | cons a l => simp [storeRequests]

/-- C3 witness: a concrete environment whose remote service returns zero
images yields `EmptyResultError` with an empty write trace. -/
theorem generate_vto_image_empty_result_witness :
    generate_vto_image emptyEnv (some "p.png") (some "q.png") 2 7 =
      (Except.error VtoError.EmptyResultError,
        [VtoEvent.convertUrl (some "p.png"), VtoEvent.convertUrl (some "q.png"),
          VtoEvent.remoteCall (mkRecontextRequest emptyEnv "gs://p.png" "gs://q.png" 2 7)]) ∧
    storageWrites (generate_vto_image emptyEnv (some "p.png") (some "q.png") 2 7).2 = [] :=
  (generate_vto_image_empty_result emptyEnv (some "p.png") (some "q.png") 2 7).1
    "gs://p.png" "gs://q.png" { generated_images := [] } rfl rfl rfl rfl

/-- C4: if the storage writer succeeds on the images before index `j` and
fails on the image of index `j`, `generate_vto_image` surfaces exactly that
storage error, and the writes actually attempted are exactly those for the
images of indices `0..j` (the `j` preceding successes plus the failing one:
`j + 1` attempts, nothing after the failure). -/
theorem generate_vto_image_write_failure_aborts
    (env : VtoEnv) (p q : Option String) (n b : Int) (pu qu : String)
    (resp : RecontextResponse) (j : Nat) (e : VtoError)
    (hp : env.https_url_to_gcs_uri p = Except.ok pu)
    (hq : env.https_url_to_gcs_uri q = Except.ok qu)
    (hr : env.recontext_image (mkRecontextRequest env pu qu n b) = Except.ok resp)
    (hj : j < resp.generated_images.length)
    (hpre : ∀ (k : Nat) (hk : k < resp.generated_images.length), k < j →
      ∃ u, env.store_to_gcs
        (mkStoreRequest env (resp.generated_images.get ⟨k, hk⟩) k) = Except.ok u)
    (hfail : env.store_to_gcs
      (mkStoreRequest env (resp.generated_images.get ⟨j, hj⟩) j) = Except.error e) :
    (generate_vto_image env p q n b).1 = Except.error e ∧
    storageWrites (generate_vto_image env p q n b).2 =
      storeRequests env (resp.generated_images.take (j + 1)) 0 ∧
    (storageWrites (generate_vto_image env p q n b).2).length = j + 1 := by
  have hne : resp.generated_images ≠ [] := by
    intro hnil
    rw [hnil] at hj
    simp at hj
  have hpre0 : ∀ (k : Nat) (hk : k < resp.generated_images.length), k < j →
      ∃ u, env.store_to_gcs
        (mkStoreRequest env (resp.generated_images.get ⟨k, hk⟩) (0 + k)) = Except.ok u := by
    intro k hk hkj
    simpa using hpre k hk hkj
  have hfail0 : env.store_to_gcs
      (mkStoreRequest env (resp.generated_images.get ⟨j, hj⟩) (0 + j)) = Except.error e := by
    simpa using hfail
  obtain ⟨hres, htr⟩ :=
    persistImages_fail env resp.generated_images 0 j hj e hpre0 hfail0
  have hgen : generate_vto_image env p q n b =
      ((persistImages env resp.generated_images 0).1,
        [VtoEvent.convertUrl p, VtoEvent.convertUrl q,
          VtoEvent.remoteCall (mkRecontextRequest env pu qu n b)] ++
          (persistImages env resp.generated_images 0).2) := by
    simp only [generate_vto_image, hp, hq, hr, if_neg hne]
  have hsw : storageWrites (generate_vto_image env p q n b).2 =
      storeRequests env (resp.generated_images.take (j + 1)) 0 := by
    rw [hgen]
    simp [storageWrites_append, htr, storageWrites_map_storageWrite, storageWrites]
  refine ⟨?_, hsw, ?_⟩
  · rw [hgen]
    exact hres
  · rw [hsw, storeRequests_length, List.length_take]
    omega

/-- C4 witness: with three result images and a writer that fails on the
second, exactly two writes are attempted and the storage error surfaces. -/
theorem generate_vto_image_write_failure_aborts_witness :
    (generate_vto_image storeFailEnv (some "p.png") (some "q.png") 3 32).1 =
      Except.error (VtoError.StorageWriteError "disk full") ∧
    storageWrites (generate_vto_image storeFailEnv (some "p.png") (some "q.png") 3 32).2 =
      storeRequests storeFailEnv
        (([{ data := [0] }, { data := [1] }, { data := [2] }] :
          List GeneratedImage).take 2) 0 ∧
    (storageWrites
      (generate_vto_image storeFailEnv (some "p.png") (some "q.png") 3 32).2).length =
        1 + 1 :=
  generate_vto_image_write_failure_aborts storeFailEnv (some "p.png") (some "q.png") 3 32
    "gs://p.png" "gs://q.png"
    { generated_images := [{ data := [0] }, { data := [1] }, { data := [2] }] }
    1 (VtoError.StorageWriteError "disk full") rfl rfl rfl (by decide)
    (by
      intro k hk hk1
      cases k with
      | zero => exact ⟨"gs://bucket/vto_results/vto_result_u0-0_.png", rfl⟩
      | succ m => omega)
    rfl

/-- C5: if the person reference fails conversion, `generate_vto_image`
raises that `ConversionError` with a trace holding only that conversion
attempt (no remote call, no storage write); likewise if the person
reference converts but the product reference fails conversion. -/
theorem generate_vto_image_conversion_failure
    (env : VtoEnv) (p q : Option String) (n b : Int) (r : Option String) :
    (env.https_url_to_gcs_uri p = Except.error (VtoError.ConversionError r) →
      generate_vto_image env p q n b =
        (Except.error (VtoError.ConversionError r), [VtoEvent.convertUrl p]) ∧
      remoteCalls (generate_vto_image env p q n b).2 = [] ∧
      storageWrites (generate_vto_image env p q n b).2 = []) ∧
    (∀ pu, env.https_url_to_gcs_uri p = Except.ok pu →
      env.https_url_to_gcs_uri q = Except.error (VtoError.ConversionError r) →
      generate_vto_image env p q n b =
        (Except.error (VtoError.ConversionError r),
          [VtoEvent.convertUrl p, VtoEvent.convertUrl q]) ∧
      remoteCalls (generate_vto_image env p q n b).2 = [] ∧
      storageWrites (generate_vto_image env p q n b).2 = []) := by
  constructor
  · intro hp
    have hgen : generate_vto_image env p q n b =
        (Except.error (VtoError.ConversionError r), [VtoEvent.convertUrl p]) := by
      simp only [generate_vto_image, hp]
    exact ⟨hgen, by rw [hgen]; rfl, by rw [hgen]; rfl⟩
  · intro pu hp hq
    have hgen : generate_vto_image env p q n b =
        (Except.error (VtoError.ConversionError r),
          [VtoEvent.convertUrl p, VtoEvent.convertUrl q]) := by
      simp only [generate_vto_image, hp, hq]
    exact ⟨hgen, by rw [hgen]; rfl, by rw [hgen]; rfl⟩

/-- C5 witness: an unset person reference fails conversion immediately; a
product reference of unrecognized form fails conversion after the person
reference converted. -/
theorem generate_vto_image_conversion_failure_witness :
    (generate_vto_image okEnv none (some "q.png") 2 7 =
      (Except.error (VtoError.ConversionError none), [VtoEvent.convertUrl none]) ∧
    remoteCalls (generate_vto_image okEnv none (some "q.png") 2 7).2 = [] ∧
    storageWrites (generate_vto_image okEnv none (some "q.png") 2 7).2 = []) ∧
    (generate_vto_image okEnv (some "p.png") (some "bad") 2 7 =
      (Except.error (VtoError.ConversionError (some "bad")),
        [VtoEvent.convertUrl (some "p.png"), VtoEvent.convertUrl (some "bad")]) ∧
    remoteCalls (generate_vto_image okEnv (some "p.png") (some "bad") 2 7).2 = [] ∧
    storageWrites (generate_vto_image okEnv (some "p.png") (some "bad") 2 7).2 = []) :=
  ⟨(generate_vto_image_conversion_failure okEnv none (some "q.png") 2 7 none).1 rfl,
    (generate_vto_image_conversion_failure okEnv (some "p.png") (some "bad") 2 7
      (some "bad")).2 "gs://p.png" rfl rfl⟩

/-- C6: when both conversions succeed, the one remote-service call of a
`generate_vto_image` invocation carries exactly the configured model
identifier, the converted person location, a single-element product list
with the converted product location, the caller's step count, and the
caller's requested output count. -/
theorem generate_vto_image_request_construction
    (env : VtoEnv) (p q : Option String) (n b : Int) (pu qu : String)
    (hp : env.https_url_to_gcs_uri p = Except.ok pu)
    (hq : env.https_url_to_gcs_uri q = Except.ok qu) :
    remoteCalls (generate_vto_image env p q n b).2 = [mkRecontextRequest env pu qu n b] ∧
    (mkRecontextRequest env pu qu n b).model = env.VTO_MODEL_ID ∧
    (mkRecontextRequest env pu qu n b).person_image = pu ∧
    (mkRecontextRequest env pu qu n b).product_images = [qu] ∧
    (mkRecontextRequest env pu qu n b).base_steps = b ∧
    (mkRecontextRequest env pu qu n b).number_of_images = n := by
  refine ⟨?_, rfl, rfl, rfl, rfl, rfl⟩
  simp only [generate_vto_image, hp, hq]
  cases hr : env.recontext_image (mkRecontextRequest env pu qu n b) with
  | error e => simp [remoteCalls]
  | ok resp =>
    by_cases hne : resp.generated_images = []
    · simp [remoteCalls, hne]
    · simp [remoteCalls_append, remoteCalls, persistImages_remoteCalls, hne]

/-- C6 witness: the concrete request issued in a concrete successful run. -/
theorem generate_vto_image_request_construction_witness :
    remoteCalls (generate_vto_image okEnv (some "p.png") (some "q.png") 2 7).2 =
      [mkRecontextRequest okEnv "gs://p.png" "gs://q.png" 2 7] ∧
    (mkRecontextRequest okEnv "gs://p.png" "gs://q.png" 2 7).model = okEnv.VTO_MODEL_ID ∧
    (mkRecontextRequest okEnv "gs://p.png" "gs://q.png" 2 7).person_image = "gs://p.png" ∧
    (mkRecontextRequest okEnv "gs://p.png" "gs://q.png" 2 7).product_images = ["gs://q.png"] ∧
    (mkRecontextRequest okEnv "gs://p.png" "gs://q.png" 2 7).base_steps = 7 ∧
    (mkRecontextRequest okEnv "gs://p.png" "gs://q.png" 2 7).number_of_images = 2 :=
  generate_vto_image_request_construction okEnv (some "p.png") (some "q.png") 2 7
    "gs://p.png" "gs://q.png" rfl rfl

/-- C7: in a successful call the storage writes performed are exactly one
per generated image in response order, and the `k`-th write targets folder
`"vto_results"` with content type `"image/png"`, a file name embedding the
`k`-th fresh identifier and the index `k`, and the raw bytes of the `k`-th
image, with `decode = false` (bytes written verbatim, not decoded text). -/
theorem generate_vto_image_write_shape
    (env : VtoEnv) (p q : Option String) (n b : Int) (uris : List String)
    (tr : List VtoEvent)
    (hok : generate_vto_image env p q n b = (Except.ok uris, tr)) :
    ∃ resp : RecontextResponse,
      (∃ pu qu,
        env.https_url_to_gcs_uri p = Except.ok pu ∧
        env.https_url_to_gcs_uri q = Except.ok qu ∧
        env.recontext_image (mkRecontextRequest env pu qu n b) = Except.ok resp) ∧
      storageWrites tr = storeRequests env resp.generated_images 0 ∧
      (storeRequests env resp.generated_images 0).length =
        resp.generated_images.length ∧
      ∀ (k : Nat) (hk2 : k < resp.generated_images.length)
        (hk : k < (storeRequests env resp.generated_images 0).length),
        (storeRequests env resp.generated_images 0).get ⟨k, hk⟩ =
          { folder := "vto_results"
            file_name := vtoFileName (env.uuid4 k) k
            mime_type := "image/png"
            contents := (resp.generated_images.get ⟨k, hk2⟩).data
            decode := false } := by
  obtain ⟨pu, qu, resp, hp, hq, hr, hne, hloop, htr⟩ :=
    generate_ok_inv env p q n b uris tr hok
  obtain ⟨ht, -, -⟩ := persistImages_ok_inv env resp.generated_images 0 uris _ hloop
  refine ⟨resp, ⟨pu, qu, hp, hq, hr⟩, ?_, storeRequests_length env _ 0, ?_⟩
  · rw [htr, storageWrites_append, ht, storageWrites_map_storageWrite]
    simp [storageWrites]
  · intro k hk2 hk
    have := storeRequests_get env resp.generated_images 0 k hk2 hk
    simpa [mkStoreRequest] using this

/-- C7 witness: shape of the two writes of a concrete successful run. -/
theorem generate_vto_image_write_shape_witness :
    ∃ resp : RecontextResponse,
      (∃ pu qu,
        okEnv.https_url_to_gcs_uri (some "p.png") = Except.ok pu ∧
        okEnv.https_url_to_gcs_uri (some "q.png") = Except.ok qu ∧
        okEnv.recontext_image (mkRecontextRequest okEnv pu qu 2 7) = Except.ok resp) ∧
      storageWrites (generate_vto_image okEnv (some "p.png") (some "q.png") 2 7).2 =
        storeRequests okEnv resp.generated_images 0 ∧
      (storeRequests okEnv resp.generated_images 0).length =
        resp.generated_images.length ∧
      ∀ (k : Nat) (hk2 : k < resp.generated_images.length)
        (hk : k < (storeRequests okEnv resp.generated_images 0).length),
        (storeRequests okEnv resp.generated_images 0).get ⟨k, hk⟩ =
          { folder := "vto_results"
            file_name := vtoFileName (okEnv.uuid4 k) k
            mime_type := "image/png"
            contents := (resp.generated_images.get ⟨k, hk2⟩).data
            decode := false } :=
  generate_vto_image_write_shape okEnv (some "p.png") (some "q.png") 2 7
    ["gs://bucket/vto_results/vto_result_u0-0_.png",
      "gs://bucket/vto_results/vto_result_u1-1_.png"]
    (generate_vto_image okEnv (some "p.png") (some "q.png") 2 7).2 rfl

/-- C8: `call_virtual_try_on` delegates to `generate_vto_image` with its
person and product references passed through unchanged and the step count
fixed at 32, then repackages the result; a caller that supplies no output
count gets the default 1. -/
theorem call_virtual_try_on_delegates
    (env : VtoEnv) (p q : Option String) (v : Int) :
    call_virtual_try_on env p q (some v) =
      repackage (generate_vto_image env p q v 32) ∧
    call_virtual_try_on env p q none =
      repackage (generate_vto_image env p q 1 32) :=
  ⟨rfl, rfl⟩

/-- C9: any error of `generate_vto_image` surfaces from
`call_virtual_try_on` unchanged, with the same trace and no partial
result. -/
theorem call_virtual_try_on_propagates_errors
    (env : VtoEnv) (p q : Option String) (v : Int) (e : VtoError)
    (h : (generate_vto_image env p q v 32).1 = Except.error e) :
    (call_virtual_try_on env p q (some v)).1 = Except.error e ∧
    (call_virtual_try_on env p q (some v)).2 =
      (generate_vto_image env p q v 32).2 := by
  rcases hg : generate_vto_image env p q v 32 with ⟨g1, g2⟩
  rw [hg] at h
  have h1 : g1 = Except.error e := h
  subst h1
  constructor
  · simp [call_virtual_try_on, repackage, hg]
  · simp [call_virtual_try_on, repackage, hg]

/-- C9 witness: the conversion error of an unset person reference
propagates through `call_virtual_try_on` unchanged. -/
theorem call_virtual_try_on_propagates_errors_witness :
    (call_virtual_try_on okEnv none none (some 1)).1 =
      Except.error (VtoError.ConversionError none) ∧
    (call_virtual_try_on okEnv none none (some 1)).2 =
      (generate_vto_image okEnv none none 1 32).2 :=
  call_virtual_try_on_propagates_errors okEnv none none 1
    (VtoError.ConversionError none) rfl

/-- C10: within one successful call the file names passed to the storage
writer are pairwise distinct, for every identifier generator (even one that
repeats values), because each file name embeds its positional index. -/
theorem generate_vto_image_distinct_file_names
    (env : VtoEnv) (p q : Option String) (n b : Int) (uris : List String)
    (tr : List VtoEvent)
    (hok : generate_vto_image env p q n b = (Except.ok uris, tr)) :
    ((storageWrites tr).map (fun r => r.file_name)).Nodup := by
  obtain ⟨pu, qu, resp, hp, hq, hr, hne, hloop, htr⟩ :=
    generate_ok_inv env p q n b uris tr hok
  obtain ⟨ht, -, -⟩ := persistImages_ok_inv env resp.generated_images 0 uris _ hloop
  have hsw : storageWrites tr = storeRequests env resp.generated_images 0 := by
    rw [htr, storageWrites_append, ht, storageWrites_map_storageWrite]
    simp [storageWrites]
  rw [hsw, storeRequests_fileNames]
  exact List.Nodup.map_on
    (fun x hx y hy hxy => vtoFileName_inj (env.uuid4 x) (env.uuid4 y) x y hxy)
    (List.nodup_range' _ _)

/-- C10 witness: the two file names of a concrete successful run are
distinct. -/
theorem generate_vto_image_distinct_file_names_witness :
    ((storageWrites (generate_vto_image okEnv (some "p.png") (some "q.png") 2 7).2).map
      (fun r => r.file_name)).Nodup :=
  generate_vto_image_distinct_file_names okEnv (some "p.png") (some "q.png") 2 7
    ["gs://bucket/vto_results/vto_result_u0-0_.png",
      "gs://bucket/vto_results/vto_result_u1-1_.png"]
    (generate_vto_image okEnv (some "p.png") (some "q.png") 2 7).2 rfl
